import Mathlib

/-!
Verification development for the a2a-protocol repository.

Shallow embedding of the three Python modules the claims are about:
* `a2a_directory.py` — in-memory agent registry (register / discover / list / get),
  modelled as an association-ordered list of records, mirroring the insertion-order
  semantics of a Python dict (overwrite in place, new keys appended).
* `a2a_sdk.py` — the agent client (`A2AAgent.register`, `A2AAgent.send_task`) and
  the agent server request handler (`Handler.do_POST`).  Network replies and the
  opaque structured values carried by envelopes are parameters of the model.
* `a2a_bridge.py` — keyword routing (`_determine_target_agent`), subprocess
  execution normalization (`_execute_agent`) and the task endpoint
  (`_handle_task`).  The subprocess outcome is a parameter of the model, and the
  stringified input payload (Python `str(input_data).lower()`) is passed as a
  string argument.

Timestamps (`datetime.utcnow().isoformat()`) are modelled as an explicit string
argument `now` to the registration handler.
-/

namespace A2A

/-- An agent record as stored by `_handle_register` in `a2a_directory.py`:
the four caller-supplied fields plus the server-assigned timestamp. -/
structure AgentRecord where
  agentId : String
  name : String
  capabilities : List String
  endpoint : String
  registeredAt : String
deriving Repr, DecidableEq

/-- The in-memory registry `AGENTS`.  A Python dict keyed by `agentId` is
modelled as a list of records in insertion order; the key of each entry is its
`agentId` field (exactly what `_handle_register` stores). -/
abbrev Registry := List AgentRecord

/-- Python dict assignment `AGENTS[agent_id] = record`: if the key is present
the entry is overwritten in place (iteration order unchanged), otherwise the
entry is appended at the end. -/
def registryInsert (s : Registry) (r : AgentRecord) : Registry :=
  if s.any (fun x => x.agentId == r.agentId) then
    s.map (fun x => if x.agentId == r.agentId then r else x)
  else
    s ++ [r]

/-- A register request body: each of the four required fields is either present
or missing (`request.get`-style presence). -/
structure RegisterRequest where
  agentId : Option String
  name : Option String
  capabilities : Option (List String)
  endpoint : Option String
deriving Repr, DecidableEq

/-- The missing-fields list computed by `_handle_register`, in the fixed order
of its `required` list. -/
def missingFieldsOf (req : RegisterRequest) : List String :=
  (if req.agentId.isNone then ["agentId"] else []) ++
  (if req.name.isNone then ["name"] else []) ++
  (if req.capabilities.isNone then ["capabilities"] else []) ++
  (if req.endpoint.isNone then ["endpoint"] else [])

/-- Reply of the register endpoint: HTTP 400 naming the missing fields, or
HTTP 200 `status:"registered"` echoing the agent id. -/
inductive RegisterReply where
  | missingFields (fields : List String)
  | registered (agentId : String)
deriving Repr, DecidableEq

/-- `_handle_register`: validation of the four required fields, then dict
overwrite of the record under its `agentId`, stamping `registeredAt := now`. -/
def handleRegister (req : RegisterRequest) (now : String) (s : Registry) :
    Registry × RegisterReply :=
  match req.agentId, req.name, req.capabilities, req.endpoint with
  | some aid, some nm, some caps, some ep =>
      (registryInsert s
        { agentId := aid, name := nm, capabilities := caps,
          endpoint := ep, registeredAt := now },
       .registered aid)
  | _, _, _, _ => (s, .missingFields (missingFieldsOf req))

/-- Reply of the discover endpoint: HTTP 400 when no capability was asked for,
or HTTP 200 with the matching records. -/
inductive DiscoverReply where
  | noCapabilities
  | agents (found : List AgentRecord)
deriving Repr, DecidableEq

/-- The match test of `_handle_discover`:
`any(cap in agent_caps for cap in wanted)`. -/
def capabilityMatch (wanted : List String) (a : AgentRecord) : Bool :=
  wanted.any (fun cap => a.capabilities.contains cap)

/-- `_handle_discover`: empty wanted list is a 400 ValidationError, otherwise
the registry is scanned in iteration order and every record sharing at least
one capability with the wanted set is returned. -/
def handleDiscover (wanted : List String) (s : Registry) : DiscoverReply :=
  if wanted.isEmpty then .noCapabilities
  else .agents (s.filter (capabilityMatch wanted))

/-- `_handle_list_agents`: `list(AGENTS.values())`, i.e. all records in
insertion order. -/
def handleListAgents (s : Registry) : List AgentRecord := s

/-- `_handle_get_agent`: the record stored under the id, or a 404 (`none`). -/
def handleGetAgent (agentId : String) (s : Registry) : Option AgentRecord :=
  s.find? (fun x => x.agentId == agentId)

/-! ### Agent client and server (`a2a_sdk.py`)

The opaque structured values carried by task envelopes (the `input` payload and
the handler output) are a type parameter `V`; `emptyObj : V` stands for the
Python default `{}` used by `params.get("input", {})`. -/

/-- The fields of a task envelope that `Handler.do_POST` reads from
`params`: each is either present or absent in the JSON object. -/
structure TaskParams (V : Type) where
  taskId : Option String
  action : Option String
  sender : Option String
  input : Option V
deriving Repr, DecidableEq

/-- A task request as read by `Handler.do_POST`: `request.get("method", "")`,
`request.get("id")` and `request.get("params", \x7b\x7d)`. -/
structure TaskRequest (V : Type) where
  id : Option String
  method : Option String
  params : Option (TaskParams V)
deriving Repr, DecidableEq

/-- The JSON response written by `Handler.do_POST` (always with HTTP 200):
either a result object carrying a `status` string and the handler output, or a
JSON-RPC error object. -/
inductive ServerResponse (V : Type) where
  | result (id : Option String) (taskId : Option String) (status : String) (output : V)
  | rpcError (id : Option String) (code : Int) (message : String)
deriving Repr, DecidableEq

/-- `Handler.do_POST` of `A2AServer.run`: dispatch on the envelope method, then
on whether a task handler is registered; on success the handler is called with
the envelope action, input (defaulting to the empty object) and sender, and its
return value is wrapped unchanged as `output` with `status = "completed"`. -/
def doPost {V : Type} (emptyObj : V)
    (taskHandler : Option (Option String → V → Option String → V))
    (req : TaskRequest V) : ServerResponse V :=
  let jsonrpcMethod := req.method.getD ""
  let taskId := req.id
  if jsonrpcMethod == "a2a/task" then
    let params := req.params.getD ⟨none, none, none, none⟩
    match taskHandler with
    | some h =>
        .result taskId params.taskId "completed"
          (h params.action (params.input.getD emptyObj) params.sender)
    | none => .rpcError taskId (-32001) "No handler registered"
  else
    .rpcError taskId (-32601) "Method not found"

/-- Outcome of `A2AAgent.send_task`: either the directory lookup failed and a
ValueError is raised before anything is sent, or a task envelope is POSTed to
the resolved endpoint.  The constructor for the failure case carries no
envelope and no endpoint: in the code the raise happens before the envelope is
built and before any call to the target. -/
inductive SendOutcome (V : Type) where
  | agentNotFound (targetAgentId : String)
  | sent (targetEndpoint : String) (request : TaskRequest V)
deriving Repr, DecidableEq

/-- `A2AAgent.send_task`: resolve the target id via the directory `get`
endpoint (`handleGetAgent`); if the directory answers with an error, raise
`ValueError` (`agentNotFound`); otherwise build the envelope with
`method = "a2a/task"` and POST it to the resolved endpoint.  The fresh
`uuid.uuid4()` task id is passed in as `taskId`. -/
def sendTask {V : Type} (registry : Registry) (selfAgentId : String)
    (targetAgentId : String) (action : String) (inputData : V)
    (taskId : String) : SendOutcome V :=
  match handleGetAgent targetAgentId registry with
  | none => .agentNotFound targetAgentId
  | some target =>
      .sent target.endpoint
        { id := some taskId, method := some "a2a/task",
          params := some
            { taskId := some taskId, action := some action,
              sender := some selfAgentId, input := some inputData } }

/-- The mutable fields of an `A2AAgent` instance; `endpoint` starts as `None`
in `__init__` and is assigned by `register`. -/
structure AgentClientState where
  agentId : String
  name : String
  capabilities : List String
  directoryUrl : String
  endpoint : Option String
deriving Repr, DecidableEq

/-- The directory reply observed by `A2AAgent.register` through `_post`: the
parsed JSON either contains an `error` key or is a success body. -/
inductive DirectoryReply where
  | success (agentId : String)
  | errorReply (message : String)
deriving Repr, DecidableEq

/-- `A2AAgent.register`: assigns `self.endpoint = endpoint` first, then POSTs
to the directory; a reply containing an error raises `RuntimeError`
(modelled as `Except.error`), otherwise the reply is returned.  The returned
state is the agent state after the call, error or not. -/
def clientRegister (a : AgentClientState) (endpoint : String)
    (reply : DirectoryReply) : AgentClientState × Except String DirectoryReply :=
  let updated := { a with endpoint := some endpoint }
  match reply with
  | .errorReply m => (updated, .error ("Registration failed: " ++ m))
  | .success aid => (updated, .ok (.success aid))

/-! ### Task router / bridge (`a2a_bridge.py`) -/

/-- Python `s.lower()` for the ASCII strings the router matches on,
character by character. -/
def toLowerStr (s : String) : String := String.mk (s.data.map Char.toLower)

/-- Helper for the Python substring test: does `needle` occur as a contiguous
run inside `hay`? -/
def charsContain (needle : List Char) : List Char → Bool
  | [] => needle.isEmpty
  | c :: rest => needle.isPrefixOf (c :: rest) || charsContain needle rest

/-- Python substring test `needle in hay`. -/
def strContains (hay needle : String) : Bool :=
  charsContain needle.toList hay.toList

/-- Python `any(kw in hay for kw in kws)`. -/
def containsAny (hay : String) (kws : List String) : Bool :=
  kws.any (fun kw => strContains hay kw)

/-- `_determine_target_agent`: ordered keyword rules over the lowercased
action and the lowercased stringified input payload, first match wins, ending
with the researcher default.  The returned Python dict literal is modelled as
an association list with the same two keys. -/
def determineTargetAgent (action : String) (inputStr : String) :
    List (String × String) :=
  let actionLower := toLowerStr action
  let inputLower := toLowerStr inputStr
  if containsAny actionLower ["code", "program", "implement", "build", "function"] then
    [("agent_id", "code"), ("name", "Code Agent")]
  else if strContains inputLower "code" || strContains inputLower "program" then
    [("agent_id", "code"), ("name", "Code Agent")]
  else if containsAny actionLower ["data", "analyze", "analytics", "query", "stats"] then
    [("agent_id", "data"), ("name", "Data Agent")]
  else if strContains inputLower "analyze" || strContains inputLower "analytics"
      || strContains inputLower "data" then
    [("agent_id", "data"), ("name", "Data Agent")]
  else if containsAny actionLower ["api", "integration", "webhook", "connect"] then
    [("agent_id", "api"), ("name", "API Agent")]
  else if containsAny actionLower ["research", "search", "find"] then
    [("agent_id", "researcher"), ("name", "Researcher")]
  else if strContains inputLower "research" || strContains inputLower "find" then
    [("agent_id", "researcher"), ("name", "Researcher")]
  else if containsAny actionLower ["write", "document", "draft", "edit", "create"] then
    [("agent_id", "writer"), ("name", "Writer")]
  else if strContains inputLower "write" || strContains inputLower "document" then
    [("agent_id", "writer"), ("name", "Writer")]
  else
    [("agent_id", "researcher"), ("name", "Researcher")]

/-- What `subprocess.run(cmd, capture_output=True, text=True, timeout=120)`
can do, as observed by `_execute_agent`: terminate with an exit code and the
two streams, exceed the 120 second timeout (`subprocess.TimeoutExpired`), or
fail to launch with some other exception. -/
inductive SubprocessOutcome where
  | completed (returncode : Int) (stdout : String) (stderr : String)
  | timeoutExpired
  | launchError (message : String)
deriving Repr, DecidableEq

/-- The dict `_execute_agent` returns: either a success payload or an error
payload, both tagged with the executing agent id. -/
inductive ExecResult where
  | success (result : String) (agent : String)
  | failure (error : String) (agent : String)
deriving Repr, DecidableEq

/-- `_execute_agent` from the `subprocess.run` call onward: exit code 0 yields
the stripped stdout (or a fixed message when it is empty); a non-zero exit
yields an error dict carrying stderr; a timeout yields the distinct
"Task timed out" error dict; any other exception yields a generic error dict.
No branch raises to the caller. -/
def executeAgent (agentId : String) (run : SubprocessOutcome) : ExecResult :=
  match run with
  | .completed rc out err =>
      if rc == 0 then
        let output := out.trim
        if output == "" then .success "Task completed" agentId
        else .success output agentId
      else .failure err agentId
  | .timeoutExpired => .failure "Task timed out" agentId
  | .launchError e => .failure e agentId

/-- The body `_handle_task` wraps around the execution result: always
`status = "completed"`, with the `_execute_agent` dict as `output`. -/
structure BridgeTaskResult where
  taskId : String
  status : String
  output : ExecResult
deriving Repr, DecidableEq

/-- The HTTP response of `_handle_task`: the 400 branch for a falsy target
dict, or the 200 response wrapping the task result. -/
inductive BridgeResponse where
  | badRequest (error : String)
  | ok (id : String) (result : BridgeTaskResult)
deriving Repr, DecidableEq

/-- `_handle_task`: classify, guard against a falsy (empty) target dict,
execute via the backend (whose behavior is the `run` parameter) and wrap the
result.  `inputStr` is the stringified input payload used for classification. -/
def bridgeHandleTask (taskId : String) (action : String) (inputStr : String)
    (run : SubprocessOutcome) : BridgeResponse :=
  let target := determineTargetAgent action inputStr
  if target.isEmpty then
    .badRequest "Could not determine target agent"
  else
    let agentId := (target.lookup "agent_id").getD ""
    .ok taskId
      { taskId := taskId, status := "completed",
        output := executeAgent agentId run }

/-- The ordered rule table as the specification states it (section 4.5):
per category, the action keywords, the input-fallback keywords, and the
target agent identifier.  This definition follows the words of the spec and
exists only to be compared with `determineTargetAgent`, which is the
embedding of the code. -/
def specRuleTable : List (List String × List String × String) :=
  [ (["code", "program", "implement", "build", "function"],
      ["code", "program"], "code"),
    (["data", "analyze", "analytics", "query", "stats"],
      ["analyze", "analytics", "data"], "data"),
    (["api", "integration", "webhook", "connect"], [], "api"),
    (["research", "search", "find"], ["research", "find"], "researcher"),
    (["write", "document", "draft", "edit", "create"],
      ["write", "document"], "writer") ]

/-- First-match-wins evaluation of a rule table, as described by the spec:
case-insensitive substring matching against the action, then against the
stringified input as a fallback for the same category; default target
`researcher` when no rule matches. -/
def specClassifyAux (action inputStr : String) :
    List (List String × List String × String) → String
  | [] => "researcher"
  | (actionKws, inputKws, tgt) :: rest =>
      if containsAny (toLowerStr action) actionKws
          || containsAny (toLowerStr inputStr) inputKws then tgt
      else specClassifyAux action inputStr rest

/-- The classification function the spec describes, over `specRuleTable`. -/
def specClassify (action inputStr : String) : String :=
  specClassifyAux action inputStr specRuleTable

/-! ### Shared auxiliary definitions for the statements below -/

/-- A complete register request with all four required fields present. -/
def reqOf (aid nm : String) (caps : List String) (ep : String) : RegisterRequest :=
  { agentId := some aid, name := some nm, capabilities := some caps, endpoint := some ep }

/-- The caller-visible part of a record: everything except the server-assigned
`registeredAt` timestamp. -/
def publicFields (r : AgentRecord) : AgentRecord :=
  { r with registeredAt := "" }

/-- The caller-visible view of a registry. -/
def publicView (s : Registry) : Registry := s.map publicFields

/-- The concrete record from the specification scenario in section 8. -/
def echoRecord : AgentRecord :=
  { agentId := "echo-agent", name := "Echo Agent",
    capabilities := ["echo", "ping"],
    endpoint := "http://localhost:9001",
    registeredAt := "2024-01-01T00:00:00Z" }

/-- The register request matching `echoRecord`. -/
def echoReq : RegisterRequest :=
  reqOf "echo-agent" "Echo Agent" ["echo", "ping"] "http://localhost:9001"

end A2A

namespace A2A

/-! ### Registry lemmas -/

/-- Overwriting the same key twice collapses to the last write
(Python dict assignment semantics). -/
theorem registryInsert_insert_same (s : Registry) (r r2 : AgentRecord)
    (h : r2.agentId = r.agentId) :
    registryInsert (registryInsert s r) r2 = registryInsert s r2 := by
  unfold registryInsert
  by_cases hs : s.any (fun x => x.agentId == r.agentId) = true
  · rw [if_pos hs]
    have hs2 : s.any (fun x => x.agentId == r2.agentId) = true := by
      simpa [h] using hs
    have hmapped :
        (s.map (fun x => if x.agentId == r.agentId then r else x)).any
          (fun x => x.agentId == r2.agentId) = true := by
      rw [List.any_map]
      obtain ⟨x, hx, hxid⟩ := List.any_eq_true.mp hs
      refine List.any_eq_true.mpr ⟨x, hx, ?_⟩
      simp only [Function.comp_apply]
      rw [if_pos hxid]
      simp [h]
    rw [if_pos hmapped, if_pos hs2, List.map_map]
    refine List.map_congr_left (fun x _ => ?_)
    simp only [Function.comp_apply]
    by_cases hx : x.agentId = r.agentId
    · simp [hx, h]
    · have hx2 : ¬ x.agentId = r2.agentId := by rw [h]; exact hx
      simp [hx, hx2]
  · rw [if_neg hs]
    have hs2 : ¬ s.any (fun x => x.agentId == r2.agentId) = true := by
      simpa [h] using hs
    have happ : (s ++ [r]).any (fun x => x.agentId == r2.agentId) = true := by
      simp [h]
    rw [if_pos happ, if_neg hs2, List.map_append]
    have hself : ∀ x ∈ s, (if x.agentId == r2.agentId then r2 else x) = x := by
      intro x hx
      have : ¬ x.agentId = r2.agentId := by
        intro heq
        exact hs2 (List.any_eq_true.mpr ⟨x, hx, by simp [heq]⟩)
      simp [this]
    rw [List.map_congr_left hself]
    simp [h]

/-- `registryInsert` commutes with taking the caller-visible view, because the
key field is preserved by `publicFields`. -/
theorem publicView_registryInsert (s : Registry) (r : AgentRecord) :
    publicView (registryInsert s r) =
      registryInsert (publicView s) (publicFields r) := by
  unfold registryInsert publicView
  have hkey : (s.map publicFields).any
      (fun x => x.agentId == (publicFields r).agentId) =
      s.any (fun x => x.agentId == r.agentId) := by
    rw [List.any_map]
    rfl
  by_cases hs : s.any (fun x => x.agentId == r.agentId) = true
  · rw [if_pos hs, if_pos (by rw [hkey]; exact hs), List.map_map, List.map_map]
    refine List.map_congr_left (fun x _ => ?_)
    simp only [Function.comp_apply]
    by_cases hx : x.agentId = r.agentId
    · simp [publicFields, hx]
    · simp [publicFields, hx]
  · rw [if_neg hs, if_neg (by rw [hkey]; exact hs)]
    simp

/-! ### Claim C1 -/

/-- C1: for every wanted-capability set and every registry state, an empty
wanted set makes `discover` fail with the 400 ValidationError; otherwise the
returned list is exactly the registered records whose capability set shares at
least one element with the wanted set, in registry iteration order, and it is
empty when no record matches. -/
theorem discover_capability_match (wanted : List String) (s : Registry) :
    (wanted = [] → handleDiscover wanted s = .noCapabilities) ∧
    (wanted ≠ [] →
      ∀ found, handleDiscover wanted s = .agents found →
        found.Sublist s ∧
        (∀ r, r ∈ found ↔ r ∈ s ∧ ∃ cap ∈ wanted, cap ∈ r.capabilities) ∧
        ((∀ r ∈ s, ∀ cap ∈ wanted, cap ∉ r.capabilities) → found = [])) := by
  constructor
  · intro hw
    simp [handleDiscover, hw]
  · intro hw found heq
    have hne : wanted.isEmpty = false := by
      cases wanted with
      | nil => exact absurd rfl hw
      | cons a l => rfl
    rw [handleDiscover, hne] at heq
    simp only [Bool.false_eq_true, if_false, DiscoverReply.agents.injEq] at heq
    subst heq
    refine ⟨List.filter_sublist s, fun r => ?_, fun hnone => ?_⟩
    · rw [List.mem_filter]
      constructor
      · rintro ⟨hr, hmatch⟩
        refine ⟨hr, ?_⟩
        obtain ⟨cap, hcap, hin⟩ := List.any_eq_true.mp hmatch
        exact ⟨cap, hcap, by simpa using hin⟩
      · rintro ⟨hr, cap, hcap, hin⟩
        exact ⟨hr, List.any_eq_true.mpr ⟨cap, hcap, by simpa using hin⟩⟩
    · rw [List.filter_eq_nil_iff]
      intro r hr
      rw [Bool.not_eq_true, ← Bool.not_eq_true]
      intro hmatch
      obtain ⟨cap, hcap, hin⟩ := List.any_eq_true.mp hmatch
      exact hnone r hr cap hcap (by simpa using hin)

/-- Witness for C1: the concrete section 8 scenario — an empty wanted set is
rejected, and `discover(["ping"])` on the one-record registry returns exactly
the echo record. -/
theorem discover_capability_match_witness :
    handleDiscover [] [echoRecord] = .noCapabilities ∧
    ([echoRecord].Sublist [echoRecord] ∧
      (∀ r, r ∈ [echoRecord] ↔
        r ∈ [echoRecord] ∧ ∃ cap ∈ ["ping"], cap ∈ r.capabilities) ∧
      ((∀ r ∈ [echoRecord], ∀ cap ∈ ["ping"], cap ∉ r.capabilities) →
        [echoRecord] = [])) :=
  ⟨(discover_capability_match [] [echoRecord]).1 rfl,
   (discover_capability_match ["ping"] [echoRecord]).2 (by decide) [echoRecord]
     (by decide)⟩

/-! ### Claim C5 -/

/-- C5: registering two valid records with distinct ids makes both visible in
`list()`; re-registering the first id with new fields fully overwrites the
record (the old record is gone from list, get and discover) while the length
of `list()` and its id order are unchanged (an overwrite does not reorder). -/
theorem register_overwrite_preserves_order
    (a1 n1 e1 a2 n2 e2 n1b e1b t1 t2 t3 : String)
    (c1 c2 c1b : List String)
    (hids : a1 ≠ a2) (hch : n1b ≠ n1) :
    ∀ s2 s3 : Registry,
      s2 = (handleRegister (reqOf a2 n2 c2 e2) t2
              (handleRegister (reqOf a1 n1 c1 e1) t1 []).1).1 →
      s3 = (handleRegister (reqOf a1 n1b c1b e1b) t3 s2).1 →
      (⟨a1, n1, c1, e1, t1⟩ : AgentRecord) ∈ handleListAgents s2 ∧
      (⟨a2, n2, c2, e2, t2⟩ : AgentRecord) ∈ handleListAgents s2 ∧
      (handleListAgents s3).length = (handleListAgents s2).length ∧
      (handleListAgents s3).map AgentRecord.agentId =
        (handleListAgents s2).map AgentRecord.agentId ∧
      handleGetAgent a1 s3 = some ⟨a1, n1b, c1b, e1b, t3⟩ ∧
      (⟨a1, n1, c1, e1, t1⟩ : AgentRecord) ∉ handleListAgents s3 ∧
      (∀ wanted found, handleDiscover wanted s3 = .agents found →
        (⟨a1, n1, c1, e1, t1⟩ : AgentRecord) ∉ found) := by
  intro s2 s3 hs2 hs3
  have hids2 : a2 ≠ a1 := Ne.symm hids
  have hs2v : s2 = [⟨a1, n1, c1, e1, t1⟩, ⟨a2, n2, c2, e2, t2⟩] := by
    rw [hs2]
    simp [handleRegister, reqOf, registryInsert, hids]
  have hs3v : s3 = [⟨a1, n1b, c1b, e1b, t3⟩, ⟨a2, n2, c2, e2, t2⟩] := by
    rw [hs3, hs2v]
    simp [handleRegister, reqOf, registryInsert, hids2]
  have hnotin :
      (⟨a1, n1, c1, e1, t1⟩ : AgentRecord) ∉
        [(⟨a1, n1b, c1b, e1b, t3⟩ : AgentRecord), ⟨a2, n2, c2, e2, t2⟩] := by
    intro hmem
    rcases List.mem_cons.mp hmem with heq | hmem2
    · exact hch (congrArg AgentRecord.name heq).symm
    · rcases List.mem_cons.mp hmem2 with heq | hnil
      · exact hids (congrArg AgentRecord.agentId heq)
      · simp at hnil
  subst hs2v hs3v
  refine ⟨by simp [handleListAgents], by simp [handleListAgents],
          by simp [handleListAgents], by simp [handleListAgents],
          by simp [handleGetAgent], hnotin, ?_⟩
  intro wanted found heq hmem
  rw [handleDiscover] at heq
  by_cases hw : wanted.isEmpty
  · rw [if_pos hw] at heq
    exact DiscoverReply.noConfusion heq
  · rw [if_neg hw] at heq
    have hfound := (DiscoverReply.agents.injEq _ _).mp heq.symm
    rw [hfound] at hmem
    exact hnotin (List.mem_filter.mp hmem).1

/-- Witness for C5: two concrete distinct agents, then an overwrite of the
first with a new name. -/
theorem register_overwrite_preserves_order_witness :
    (⟨"echo-agent", "Echo Agent", ["echo", "ping"], "http://localhost:9001",
        "t1"⟩ : AgentRecord) ∈
      handleListAgents
        ((handleRegister (reqOf "code-agent" "Code Agent" ["code"]
            "http://localhost:9002") "t2"
          (handleRegister echoReq "t1" []).1).1) ∧
    handleGetAgent "echo-agent"
      ((handleRegister (reqOf "echo-agent" "Echo v2" ["echo"]
          "http://localhost:9003") "t3"
        ((handleRegister (reqOf "code-agent" "Code Agent" ["code"]
            "http://localhost:9002") "t2"
          (handleRegister echoReq "t1" []).1).1)).1) =
      some ⟨"echo-agent", "Echo v2", ["echo"], "http://localhost:9003", "t3"⟩ := by
  have h := register_overwrite_preserves_order
    "echo-agent" "Echo Agent" "http://localhost:9001"
    "code-agent" "Code Agent" "http://localhost:9002"
    "Echo v2" "http://localhost:9003" "t1" "t2" "t3"
    ["echo", "ping"] ["code"] ["echo"]
    (by decide) (by decide) _ _ rfl rfl
  exact ⟨h.1, h.2.2.2.2.1⟩

/-! ### Claim C8 -/

/-- Counterexample to C8 as stated: calling register twice in a row with the
identical request does NOT leave the Registry Store in the same state as
calling it once, because `_handle_register` stamps a fresh `registeredAt`
timestamp on every call, and the second call happens at a later wall-clock
instant.  With the clock explicit, the state after the second call differs
from the state after the first. -/
theorem register_twice_changes_state :
    (handleRegister echoReq "2024-01-01T00:00:01Z"
        (handleRegister echoReq "2024-01-01T00:00:00Z" []).1).1 ≠
      (handleRegister echoReq "2024-01-01T00:00:00Z" []).1 := by
  decide

/-- C8 amended: register is idempotent under identical input up to the
server-assigned `registeredAt` timestamp.  Re-registering the identical
request (a) collapses to a single registration at the later time, (b) leaves
the caller-visible view of the store (every field except `registeredAt`)
unchanged, and (c) produces the same reply. -/
theorem register_idempotent_up_to_timestamp
    (aid nm ep t1 t2 : String) (caps : List String) (s : Registry) :
    (handleRegister (reqOf aid nm caps ep) t2
        (handleRegister (reqOf aid nm caps ep) t1 s).1).1 =
      (handleRegister (reqOf aid nm caps ep) t2 s).1 ∧
    publicView (handleRegister (reqOf aid nm caps ep) t2
        (handleRegister (reqOf aid nm caps ep) t1 s).1).1 =
      publicView (handleRegister (reqOf aid nm caps ep) t1 s).1 ∧
    (handleRegister (reqOf aid nm caps ep) t2
        (handleRegister (reqOf aid nm caps ep) t1 s).1).2 =
      (handleRegister (reqOf aid nm caps ep) t1 s).2 := by
  refine ⟨?_, ?_, rfl⟩
  · exact registryInsert_insert_same s
      ⟨aid, nm, caps, ep, t1⟩ ⟨aid, nm, caps, ep, t2⟩ rfl
  · simp only [handleRegister, reqOf]
    rw [registryInsert_insert_same s
          ⟨aid, nm, caps, ep, t1⟩ ⟨aid, nm, caps, ep, t2⟩ rfl,
        publicView_registryInsert, publicView_registryInsert]
    rfl

/-! ### Claim C2 -/

/-- C2: an Agent Server with task handler `h` registered, receiving a
well-formed envelope with method "a2a/task", action `a`, input `i` and sender
`sdr`, invokes `h` on exactly `(a, i, sdr)` and answers with
`status = "completed"` and the handler return value as `output`, unchanged. -/
theorem server_task_roundtrip {V : Type} (emptyObj : V)
    (h : Option String → V → Option String → V)
    (envId tid : Option String) (a : String) (i : V) (sdr : String) :
    doPost emptyObj (some h)
      { id := envId, method := some "a2a/task",
        params := some
          { taskId := tid, action := some a, sender := some sdr,
            input := some i } } =
      .result envId tid "completed" (h (some a) i (some sdr)) := by
  simp [doPost]

/-! ### Claim C7 -/

/-- C7: a request whose method is not "a2a/task" is answered with error code
-32601; a request with the recognized method but no registered handler is
answered with error code -32001; and every error response the server produces
carries one of exactly these two codes. -/
theorem server_error_codes {V : Type} (emptyObj : V)
    (taskHandler : Option (Option String → V → Option String → V))
    (req : TaskRequest V) :
    (req.method.getD "" ≠ "a2a/task" →
      doPost emptyObj taskHandler req =
        .rpcError req.id (-32601) "Method not found") ∧
    (req.method.getD "" = "a2a/task" → taskHandler = none →
      doPost emptyObj taskHandler req =
        .rpcError req.id (-32001) "No handler registered") ∧
    (∀ rid code msg, doPost emptyObj taskHandler req = .rpcError rid code msg →
      code = -32601 ∨ code = -32001) := by
  refine ⟨fun hm => ?_, fun hm hh => ?_, fun rid code msg => ?_⟩
  · simp [doPost, hm]
  · subst hh
    simp [doPost, hm]
  · by_cases hm : req.method.getD "" = "a2a/task"
    · cases taskHandler with
      | none =>
          simp only [doPost, hm]
          intro heq
          simp only [beq_self_eq_true, if_true] at heq
          right
          exact ((ServerResponse.rpcError.injEq _ _ _ _ _ _).mp heq).2.1.symm
      | some h =>
          simp [doPost, hm]
    · simp only [doPost]
      rw [if_neg (by simpa using hm)]
      intro heq
      left
      exact ((ServerResponse.rpcError.injEq _ _ _ _ _ _).mp heq).2.1.symm

/-- Witness for C7: a concrete request with method "foo" yields -32601, and a
concrete "a2a/task" request with no handler yields -32001. -/
theorem server_error_codes_witness :
    doPost (0 : Nat) (none : Option (Option String → Nat → Option String → Nat))
        { id := some "1", method := some "foo", params := none } =
      .rpcError (some "1") (-32601) "Method not found" ∧
    doPost (0 : Nat) (none : Option (Option String → Nat → Option String → Nat))
        { id := some "2", method := some "a2a/task", params := none } =
      .rpcError (some "2") (-32001) "No handler registered" ∧
    ((-32601 : Int) = -32601 ∨ (-32601 : Int) = -32001) :=
  ⟨(server_error_codes 0 none
      { id := some "1", method := some "foo", params := none }).1 (by decide),
   (server_error_codes 0 none
      { id := some "2", method := some "a2a/task", params := none }).2.1
      (by decide) rfl,
   (server_error_codes 0 none
      { id := some "1", method := some "foo", params := none }).2.2
      (some "1") (-32601) "Method not found"
      ((server_error_codes 0 none
        { id := some "1", method := some "foo", params := none }).1 (by decide))⟩

/-! ### Claim C6 -/

/-- C6: a `send_task` call whose target id the directory does not know fails
with the agent-not-found error right after the directory lookup; the failing
outcome carries no envelope and no endpoint, so no task envelope is POSTed to
any target.  Conversely an envelope is only ever sent when the lookup
succeeded, and then to the registered endpoint. -/
theorem sendTask_unregistered_no_network {V : Type} (registry : Registry)
    (selfId targetId action : String) (inputData : V) (taskId : String) :
    (handleGetAgent targetId registry = none →
      sendTask registry selfId targetId action inputData taskId =
        .agentNotFound targetId) ∧
    (∀ ep env,
      sendTask registry selfId targetId action inputData taskId = .sent ep env →
      ∃ rec, handleGetAgent targetId registry = some rec ∧ ep = rec.endpoint) := by
  cases hl : handleGetAgent targetId registry with
  | none =>
      refine ⟨fun _ => ?_, fun ep env hsent => ?_⟩
      · simp [sendTask, hl]
      · rw [sendTask, hl] at hsent
        exact SendOutcome.noConfusion hsent
  | some rec =>
      refine ⟨fun hnone => ?_, fun ep env hsent => ?_⟩
      · exact Option.noConfusion hnone
      · rw [sendTask, hl] at hsent
        exact ⟨rec, rfl, (((SendOutcome.sent.injEq _ _ _ _).mp hsent).1).symm⟩

/-- Witness for C6: sending to an id absent from the empty registry fails with
the agent-not-found outcome. -/
theorem sendTask_unregistered_no_network_witness :
    sendTask ([] : Registry) "requester" "ghost-agent" "ping" (0 : Nat)
      "task-1" = .agentNotFound "ghost-agent" :=
  (sendTask_unregistered_no_network [] "requester" "ghost-agent" "ping"
    (0 : Nat) "task-1").1 rfl

/-! ### Claim C10 -/

/-- C10: `A2AAgent.register` assigns the local endpoint field before the
directory is contacted, so after every call — in particular one whose reply
is an error and raises RuntimeError — the local endpoint field equals the
attempted endpoint. -/
theorem client_register_sets_endpoint (a : AgentClientState) (ep : String)
    (reply : DirectoryReply) :
    (clientRegister a ep reply).1.endpoint = some ep ∧
    (∀ m, (clientRegister a ep (.errorReply m)).1.endpoint = some ep ∧
      (clientRegister a ep (.errorReply m)).2 =
        .error ("Registration failed: " ++ m)) := by
  cases reply <;> simp [clientRegister]

/-! ### Bridge lemmas -/

/-- Two consecutive guards with the same branch collapse to a disjunction:
the shape shared by an action-keyword test followed by its input fallback. -/
theorem if_if_or {α : Type} (a b : Bool) (t e : α) :
    (if a then t else if b then t else e) = (if a || b then t else e) := by
  cases a <;> cases b <;> simp

/-- Reading the `agent_id` key out of one of the router's dict literals. -/
theorem lookup_agent_id (tgt nm : String) :
    (([("agent_id", tgt), ("name", nm)] : List (String × String)).lookup
      "agent_id") = some tgt := by
  simp [List.lookup]

/-- The router only ever returns one of its five dict literals. -/
theorem determineTargetAgent_cases (action inputStr : String) :
    determineTargetAgent action inputStr =
        [("agent_id", "code"), ("name", "Code Agent")] ∨
    determineTargetAgent action inputStr =
        [("agent_id", "data"), ("name", "Data Agent")] ∨
    determineTargetAgent action inputStr =
        [("agent_id", "api"), ("name", "API Agent")] ∨
    determineTargetAgent action inputStr =
        [("agent_id", "researcher"), ("name", "Researcher")] ∨
    determineTargetAgent action inputStr =
        [("agent_id", "writer"), ("name", "Writer")] := by
  unfold determineTargetAgent
  dsimp only
  split_ifs <;> simp

/-- `_handle_task` never takes its 400 branch: the classifier output is never
the empty dict, so every request is answered with the 200 wrapper around the
execution result. -/
theorem bridgeHandleTask_ok (taskId action inputStr : String)
    (run : SubprocessOutcome) :
    bridgeHandleTask taskId action inputStr run =
      .ok taskId
        { taskId := taskId, status := "completed",
          output := executeAgent
            (((determineTargetAgent action inputStr).lookup "agent_id").getD "")
            run } := by
  rcases determineTargetAgent_cases action inputStr with h | h | h | h | h <;>
    simp [bridgeHandleTask, h]

/-! ### Claim C4 -/

/-- C4: the classification is a deterministic function that agrees, for every
action string and stringified input, with the first-match-wins evaluation of
the fixed rule table (code, data, api, research, write; action keywords first,
input keywords as the per-category fallback, case-insensitive substrings,
default researcher); in particular "implement a function" routes to `code`,
"research AI trends" routes to `researcher`, and "summarize this" with no
keyword match routes to the default `researcher`. -/
theorem router_classification_follows_rules :
    (∀ action inputStr,
      (determineTargetAgent action inputStr).lookup "agent_id" =
        some (specClassify action inputStr)) ∧
    (determineTargetAgent "implement a function" "\x7b\x7d").lookup
      "agent_id" = some "code" ∧
    (determineTargetAgent "research AI trends" "\x7b\x7d").lookup
      "agent_id" = some "researcher" ∧
    (determineTargetAgent "summarize this" "\x7b\x7d").lookup
      "agent_id" = some "researcher" := by
  refine ⟨fun action inputStr => ?_, by decide, by decide, by decide⟩
  unfold determineTargetAgent specClassify
  dsimp only
  simp only [specClassifyAux, specRuleTable, containsAny, List.any_cons,
    List.any_nil, Bool.or_false, Bool.or_assoc,
    apply_ite (List.lookup ("agent_id" : String)), lookup_agent_id,
    apply_ite (Option.some (α := String)), if_if_or]

/-! ### Claim C9 -/

/-- C9: the classifier is total — it always returns a non-empty dict whose
`agent_id` is one of the five targets (hence never empty), so the
"Could not determine target agent" 400 branch of `_handle_task` is
unreachable: every task request is answered through the 200 path. -/
theorem router_total_no_bad_request (taskId action inputStr : String)
    (run : SubprocessOutcome) :
    (determineTargetAgent action inputStr).isEmpty = false ∧
    (∃ tgt, (determineTargetAgent action inputStr).lookup "agent_id" =
      some tgt ∧ tgt ∈ ["code", "data", "api", "researcher", "writer"]) ∧
    (∃ r, bridgeHandleTask taskId action inputStr run = .ok taskId r) ∧
    (∀ e, bridgeHandleTask taskId action inputStr run ≠ .badRequest e) := by
  rcases determineTargetAgent_cases action inputStr with h | h | h | h | h <;>
    refine ⟨by simp [h], ?_, ?_, ?_⟩ <;>
    simp [h, lookup_agent_id, bridgeHandleTask_ok]

/-- Witness for C9: the no-keyword action routes through the 200 path with
the default researcher target. -/
theorem router_total_no_bad_request_witness :
    (determineTargetAgent "summarize this" "\x7b\x7d").isEmpty = false ∧
    (∃ tgt, (determineTargetAgent "summarize this" "\x7b\x7d").lookup
      "agent_id" = some tgt ∧
      tgt ∈ ["code", "data", "api", "researcher", "writer"]) ∧
    (∃ r, bridgeHandleTask "task-1" "summarize this" "\x7b\x7d"
      .timeoutExpired = .ok "task-1" r) ∧
    (∀ e, bridgeHandleTask "task-1" "summarize this" "\x7b\x7d"
      .timeoutExpired ≠ .badRequest e) :=
  router_total_no_bad_request "task-1" "summarize this" "\x7b\x7d"
    .timeoutExpired

/-! ### Claim C3 -/

/-- Counterexample to C3 as stated: when the backend subprocess exits with a
non-zero code, `_handle_task` still wraps the error dict in a TaskResult whose
`status` is "completed" (the error only appears inside `output`), not in a
TaskResult with `status = "error"` as the claim requires. -/
theorem bridge_error_status_counterexample :
    bridgeHandleTask "task-9" "implement a function" "\x7b\x7d"
        (.completed 1 "" "opengoat failed") =
      .ok "task-9"
        { taskId := "task-9", status := "completed",
          output := .failure "opengoat failed" "code" } ∧
    ("completed" : String) ≠ "error" := by
  exact ⟨by decide, by decide⟩

/-- C3 amended: a non-zero exit is reported as an error payload carrying the
backend error stream, a timeout as the distinct "Task timed out" error
payload, and any other launch failure as a generic error payload; none of
these raise to the caller — each is placed verbatim in the `output` field of a
TaskResult whose `status` is "completed", and the HTTP boundary returns the
200 response in every case. -/
theorem bridge_error_normalization (taskId action inputStr : String) :
    (∀ rc out err, rc ≠ 0 → ∃ agentId,
      bridgeHandleTask taskId action inputStr (.completed rc out err) =
        .ok taskId
          { taskId := taskId, status := "completed",
            output := .failure err agentId }) ∧
    (∃ agentId,
      bridgeHandleTask taskId action inputStr .timeoutExpired =
        .ok taskId
          { taskId := taskId, status := "completed",
            output := .failure "Task timed out" agentId }) ∧
    (∀ msg, ∃ agentId,
      bridgeHandleTask taskId action inputStr (.launchError msg) =
        .ok taskId
          { taskId := taskId, status := "completed",
            output := .failure msg agentId }) := by
  refine ⟨fun rc out err hrc => ?_, ?_, fun msg => ?_⟩
  · refine ⟨((determineTargetAgent action inputStr).lookup "agent_id").getD "", ?_⟩
    rw [bridgeHandleTask_ok]
    simp [executeAgent, hrc]
  · exact ⟨((determineTargetAgent action inputStr).lookup "agent_id").getD "",
      by rw [bridgeHandleTask_ok]; rfl⟩
  · exact ⟨((determineTargetAgent action inputStr).lookup "agent_id").getD "",
      by rw [bridgeHandleTask_ok]; rfl⟩

/-- Witness for C3 amended: the three failure modes at a concrete request. -/
theorem bridge_error_normalization_witness :
    (∃ agentId,
      bridgeHandleTask "task-9" "implement a function" "\x7b\x7d"
          (.completed 1 "" "opengoat failed") =
        .ok "task-9"
          { taskId := "task-9", status := "completed",
            output := .failure "opengoat failed" agentId }) ∧
    (∃ agentId,
      bridgeHandleTask "task-9" "implement a function" "\x7b\x7d"
          .timeoutExpired =
        .ok "task-9"
          { taskId := "task-9", status := "completed",
            output := .failure "Task timed out" agentId }) ∧
    (∃ agentId,
      bridgeHandleTask "task-9" "implement a function" "\x7b\x7d"
          (.launchError "No such file or directory") =
        .ok "task-9"
          { taskId := "task-9", status := "completed",
            output := .failure "No such file or directory" agentId }) :=
  ⟨(bridge_error_normalization "task-9" "implement a function" "\x7b\x7d").1
      1 "" "opengoat failed" (by decide),
   (bridge_error_normalization "task-9" "implement a function" "\x7b\x7d").2.1,
   (bridge_error_normalization "task-9" "implement a function" "\x7b\x7d").2.2
      "No such file or directory"⟩

end A2A
